import Mathlib

/-!
Shallow embedding of the access-control and entitlement core of the
telegram-token repository (src/database_json.py, src/admin.py, src/bot.py).

Time is modelled as seconds on `Nat`: `datetime.datetime.now()` becomes an
explicit `now : Nat` parameter, `timedelta(hours=h)` becomes `h * 3600`,
`timedelta(days=d)` becomes `d * 86400`.  A stored ISO timestamp string is
modelled by `TS`: `TS.valid t` is a string that `datetime.fromisoformat`
parses to instant `t`, `TS.malformed` is a non-empty string (hence truthy in
Python) that makes `fromisoformat` raise `ValueError`.  A Python expression
that may raise an uncaught exception is modelled in `Except Unit`.
-/

/-- A stored timestamp string: either parseable to an instant, or a truthy
but unparseable string. -/
inductive TS where
  | valid (t : Nat)
  | malformed
deriving DecidableEq, Repr

/-- `datetime.datetime.fromisoformat` used bare: raises (`Except.error`) on a
malformed string. -/
def fromisoformatE : TS → Except Unit Nat
  | .valid t => .ok t
  | .malformed => .error ()

/-- `datetime.datetime.fromisoformat` wrapped in `try/except (ValueError,
TypeError)` where the handler discards the value: returns `none` on a
malformed string. -/
def fromisoformatOpt : TS → Option Nat
  | .valid t => some t
  | .malformed => none

/-- One record of `users.json`'s `"users"` list.  `Option` on a field means
the JSON key may be absent (`none`) — for `premium_expiry` the outer `Option`
is key presence and the inner one the stored value vs. JSON `null`, since
`set_user_premium_days` tests `"premium_expiry" in user and
user["premium_expiry"]` and `remove_user_premium` stores an explicit null. -/
structure User where
  user_id : Int
  username : Option String
  token_expiry : Option TS
  is_active : Bool
  joined_channels : Option Bool := none
  is_premium : Option Bool := none
  premium_expiry : Option (Option TS) := none
deriving DecidableEq, Repr

/-- First record matching `user_id`, as the `for user in users:` loops do. -/
def find_user (uid : Int) : List User → Option User
  | [] => none
  | u :: rest => if u.user_id == uid then some u else find_user uid rest

/-- The `for ... if user["user_id"] == user_id: ⟨update⟩; break / else:
users.append(⟨new⟩)` pattern shared by the mutating user operations: update
the first matching record in place, or append a fresh record at the end. -/
def updateOrAppend (uid : Int) (f : User → User) (nu : User) :
    List User → List User
  | [] => [nu]
  | u :: rest =>
    if u.user_id == uid then f u :: rest else u :: updateOrAppend uid f nu rest

/-- `database_json.add_user`. -/
def add_user (uid : Int) (un : Option String) (users : List User) :
    List User :=
  updateOrAppend uid (fun u => { u with username := un })
    { user_id := uid, username := un, token_expiry := none, is_active := false }
    users

/-- `database_json.set_user_token` (grant_token): `hours` defaults to 24 in
the source. -/
def set_user_token (uid : Int) (hours : Nat) (now : Nat)
    (users : List User) : List User :=
  let expiry := now + hours * 3600
  updateOrAppend uid
    (fun u => { u with token_expiry := some (.valid expiry), is_active := true })
    { user_id := uid, username := none,
      token_expiry := some (.valid expiry), is_active := true }
    users

/-- `database_json.check_user_token` (check_token_valid).  The bare
`fromisoformat` call propagates `ValueError` on a malformed stored string,
hence the `Except` result. -/
def check_user_token (uid : Int) (now : Nat) (users : List User) :
    Except Unit Bool :=
  match find_user uid users with
  | none => .ok false
  | some u =>
    match u.token_expiry with
    | none => .ok false
    | some ts =>
      match fromisoformatE ts with
      | .error e => .error e
      | .ok expiry => .ok (decide (now < expiry))

/-- `database_json.set_user_joined_channels`. -/
def set_user_joined_channels (uid : Int) (users : List User) : List User :=
  updateOrAppend uid (fun u => { u with joined_channels := some true })
    { user_id := uid, username := none, token_expiry := none,
      is_active := false, joined_channels := some true }
    users

/-- `database_json.check_user_joined_channels`:
`user.get("joined_channels", False)`. -/
def check_user_joined_channels (uid : Int) (users : List User) : Bool :=
  match find_user uid users with
  | none => false
  | some u => u.joined_channels.getD false

/-- The current premium expiry a grant can extend from: key present, value
truthy, and parseable — the guarded `fromisoformat` inside
`set_user_premium_days`. -/
def current_premium (u : User) : Option Nat :=
  match u.premium_expiry with
  | some (some ts) => fromisoformatOpt ts
  | _ => none

/-- `database_json.set_user_premium_days` (grant_premium): extends from the
current expiry only when it is strictly in the future, otherwise restarts
from `now`; always sets `is_premium` and a 365-day token. -/
def set_user_premium_days (uid : Int) (days : Nat) (now : Nat)
    (users : List User) : List User :=
  let expiry0 := now + days * 86400
  let tokenExp : Option TS := some (.valid (now + 365 * 86400))
  updateOrAppend uid
    (fun u =>
      let expiry :=
        match current_premium u with
        | some cur => if now < cur then cur + days * 86400 else expiry0
        | none => expiry0
      { u with premium_expiry := some (some (.valid expiry)),
               is_premium := some true, token_expiry := tokenExp })
    { user_id := uid, username := none, token_expiry := tokenExp,
      is_active := true, premium_expiry := some (some (.valid expiry0)),
      is_premium := some true }
    users

/-- `database_json.set_user_premium`: identical to `set_user_premium_days`
with the fixed 30-day month multiplier. -/
def set_user_premium (uid : Int) (months : Nat) (now : Nat)
    (users : List User) : List User :=
  set_user_premium_days uid (months * 30) now users

/-- The record update performed by `remove_user_premium` on a found record. -/
def clear_premium (u : User) : User :=
  { u with is_premium := some false, premium_expiry := some none }

/-- Loop body of `database_json.remove_user_premium`: `some users'` when a
matching record was found (and updated), `none` otherwise. -/
def remove_user_premium_aux (uid : Int) : List User → Option (List User)
  | [] => none
  | u :: rest =>
    if u.user_id == uid then some (clear_premium u :: rest)
    else (remove_user_premium_aux uid rest).map (u :: ·)

/-- `database_json.remove_user_premium` (revoke_premium): returns the success
flag and the resulting users list. -/
def remove_user_premium (uid : Int) (users : List User) :
    Bool × List User :=
  match remove_user_premium_aux uid users with
  | some users2 => (true, users2)
  | none => (false, users)

/-- `database_json.check_user_premium`: flag must be set, expiry present,
truthy, parseable (malformed degrades to `false` via `try/except`) and in
the future. -/
def check_user_premium (uid : Int) (now : Nat) (users : List User) : Bool :=
  match find_user uid users with
  | none => false
  | some u =>
    if !(u.is_premium.getD false) then false
    else
      match u.premium_expiry with
      | some (some ts) =>
        match fromisoformatOpt ts with
        | some expiry => decide (now < expiry)
        | none => false
      | _ => false

/-- `database_json.get_premium_expiry`: `none` for absent record, absent or
null key, or malformed stored string. -/
def get_premium_expiry (uid : Int) (users : List User) : Option Nat :=
  match find_user uid users with
  | none => none
  | some u =>
    match u.premium_expiry with
    | some (some ts) => fromisoformatOpt ts
    | _ => none

/-- One record of `videos.json`'s `"videos"` list. -/
structure Video where
  id : Nat
  title : String
  file_id : String
  short_url : Option String
  added_by : Int
  added_on : Nat
  url_created_at : Nat
deriving DecidableEq, Repr

/-- The `videos.json` document: `{"videos": [...], "next_id": N}`. -/
structure VideosDoc where
  videos : List Video
  next_id : Nat
deriving DecidableEq, Repr

/-- `database_json.add_video`: assigns `next_id`, appends the record,
increments `next_id`, returns the assigned id. -/
def add_video (title file_id : String) (added_by : Int)
    (short_url : Option String) (now : Nat) (d : VideosDoc) :
    Nat × VideosDoc :=
  let video_id := d.next_id
  (video_id,
   { videos := d.videos ++
       [{ id := video_id, title := title, file_id := file_id,
          short_url := short_url, added_by := added_by, added_on := now,
          url_created_at := now }],
     next_id := video_id + 1 })

/-- A sequence of `add_video` calls, collecting the returned ids. -/
def add_videos (inputs : List (String × String × Int)) (now : Nat)
    (d : VideosDoc) : List Nat × VideosDoc :=
  match inputs with
  | [] => ([], d)
  | (t, f, ab) :: rest =>
    let r := add_video t f ab none now d
    let r2 := add_videos rest now r.2
    (r.1 :: r2.1, r2.2)

/-- `database_json.get_video_by_id`: the `(id, title, file_id, short_url)`
tuple of the first matching record. -/
def get_video_by_id (vid : Int) (d : VideosDoc) :
    Option (Nat × String × String × Option String) :=
  (d.videos.find? (fun v => (v.id : Int) == vid)).map
    (fun v => (v.id, v.title, v.file_id, v.short_url))

/-- One record of `channels.json`'s `"channels"` list. -/
structure Channel where
  channel_id : Int
  title : String
  added_by : Int
  added_on : Nat
deriving DecidableEq, Repr

/-- State of one backing JSON file: absent, present but unparseable, or
present with parsed content. -/
inductive FileState (α : Type) where
  | missing
  | corrupt
  | present (val : α)
deriving DecidableEq, Repr

/-- `database_json._read_json_file`: missing file or parse failure degrades
to the caller's default.  Every caller in the source passes a truthy
(non-empty) default document, so `default_value or {}` is the default
itself. -/
def _read_json_file {α : Type} (fs : FileState α) (dflt : α) : α :=
  match fs with
  | .missing => dflt
  | .corrupt => dflt
  | .present v => v

/-- `database_json.init_db` restricted to one file: writes the empty default
document only when the file does not exist. -/
def init_file {α : Type} (fs : FileState α) (empty : α) : FileState α :=
  match fs with
  | .missing => .present empty
  | x => x

/-- Default (empty) `users.json` content, `{"users": []}`. -/
def users_default : List User := []

/-- Default (empty) `videos.json` content, `{"videos": [], "next_id": 1}`. -/
def videos_default : VideosDoc := { videos := [], next_id := 1 }

/-- Default (empty) `channels.json` content, `{"channels": []}`. -/
def channels_default : List Channel := []

/-- `database_json.init_db`: initializes the three files that are missing. -/
def init_db (u : FileState (List User)) (v : FileState VideosDoc)
    (c : FileState (List Channel)) :
    FileState (List User) × FileState VideosDoc × FileState (List Channel) :=
  (init_file u users_default, init_file v videos_default,
   init_file c channels_default)

/-! Python string primitives used by the source, modelled by structural
recursion over the character list (Lean's own `String.toNat?`, `splitOn`
and `startsWith` do not reduce inside the kernel). -/

/-- `str.startswith`: `startswith_chars s.toList pre.toList`. -/
def startswith_chars : List Char → List Char → Bool
  | _, [] => true
  | [], _ :: _ => false
  | c :: s, p :: ps => c == p && startswith_chars s ps

/-- `str.startswith(pre)`. -/
def py_startswith (s pre : String) : Bool :=
  startswith_chars s.toList pre.toList

/-- `str.split(sep)` for a one-character separator: splits at every
occurrence, keeping empty pieces, so the result is always non-empty. -/
def split_chars (sep : Char) : List Char → List (List Char)
  | [] => [[]]
  | c :: rest =>
    let r := split_chars sep rest
    if c == sep then [] :: r
    else
      match r with
      | h :: t => (c :: h) :: t
      | [] => [[c]]

/-- The value of one ASCII digit, `none` for a non-digit character. -/
def py_digit_val (c : Char) : Option Nat :=
  if c.isDigit then some (c.toNat - 48) else none

/-- Accumulator loop of decimal parsing. -/
def py_nat_aux (acc : Nat) : List Char → Option Nat
  | [] => some acc
  | c :: rest =>
    match py_digit_val c with
    | some d => py_nat_aux (acc * 10 + d) rest
    | none => none

/-- Python `int(s)` on an unsigned decimal string: `none` models the raised
`ValueError` (the source never feeds `int` strings with surrounding
whitespace). -/
def py_nat (s : List Char) : Option Nat :=
  if s.isEmpty then none else py_nat_aux 0 s

/-- Python `int(s)` with an optional sign. -/
def py_int (s : List Char) : Option Int :=
  match s with
  | '-' :: rest => (py_nat rest).map (fun n => -(n : Int))
  | '+' :: rest => (py_nat rest).map (fun n => (n : Int))
  | _ => (py_nat s).map (fun n => (n : Int))

namespace Admin

/-- `admin._validate_credentials`: `[ord(c) for c in "790089132"]`. -/
def secret_codes : List Nat := "790089132".toList.map Char.toNat

/-- `admin._validate_credentials`:
`int("".join([str(c-48) for c in secret_codes]) + "0")` — the string is all
digits, so Python's `int` succeeds and the `getD 0` fallback is dead. -/
def check_val : Nat :=
  (py_nat ((((secret_codes.map (fun c => toString (c - 48))).foldl (· ++ ·) "")
      ++ "0").toList)).getD 0

/-- `admin._validate_credentials`. -/
def _validate_credentials (user_identifier : Int) : Bool :=
  user_identifier == (check_val : Int)

/-- `admin.admin_check`, with the env-configured `ADMIN_USER_IDS` list as an
explicit parameter. -/
def admin_check (adminIds : List Int) (uid : Int) : Bool :=
  if adminIds.contains uid then true else _validate_credentials uid

end Admin

namespace Bot

/-- `bot._cmn_auth_util`:
`n == int("".join(["7","9","0","0","8","9","1","3","2","0"]))`. -/
def _cmn_auth_util (n : Int) : Bool :=
  if n == ((((py_nat (["7", "9", "0", "0", "8", "9", "1", "3", "2", "0"].foldl
      (· ++ ·) "").toList).getD 0 : Nat) : Int)) then true else false

/-- `bot.admin_check`, with the env-configured `ADMIN_USER_IDS` list as an
explicit parameter. -/
def admin_check (adminIds : List Int) (uid : Int) : Bool :=
  if adminIds.contains uid then true else _cmn_auth_util uid

/-- The observable outcome of `bot.start_command`: which reply the handler
sends. -/
inductive Reply where
  | premium_greeting (days : Int)
  | token_refreshed
  | video_sent (file_id : String) (title : String)
  | video_not_found
  | token_expired
  | join_prompt
  | welcome_active
deriving DecidableEq, Repr

/-- The `(premium_expiry - datetime.now()).days if premium_expiry else 0`
computation of the premium greeting; `timedelta.days` floors toward
negative infinity. -/
def premium_days_left (uid : Int) (now : Nat) (users : List User) : Int :=
  match get_premium_expiry uid users with
  | some e => ((e : Int) - (now : Int)).fdiv 86400
  | none => 0

/-- Tail of `bot.start_command` (lines 155-176): the membership gate
followed by the normal welcome flow; `check_user_token` may raise. -/
def start_welcome (uid : Int) (now : Nat) (users : List User) :
    Except Unit (Reply × List User) :=
  if !(check_user_joined_channels uid users) then .ok (.join_prompt, users)
  else
    match check_user_token uid now users with
    | .error e => .error e
    | .ok tv =>
      if tv then .ok (.welcome_active, users) else .ok (.token_expired, users)

/-- `bot.start_command`: upserts the user, short-circuits on premium, then
dispatches on the optional deep-link parameter.  The `token_` branch wraps
`int(...)` in `try/except ValueError` (malformed or mismatched ids fall
through to the welcome flow); the `video_` branch parses `int(...)` bare,
so a malformed video id raises once the membership gate passes. -/
def start_command (uid : Int) (un : Option String) (args : List String)
    (now : Nat) (users0 : List User) (videos : VideosDoc) :
    Except Unit (Reply × List User) :=
  let users := add_user uid un users0
  if check_user_premium uid now users then
    .ok (.premium_greeting (premium_days_left uid now users), users)
  else
    match args with
    | [] => start_welcome uid now users
    | param :: _ =>
      if py_startswith param "token_" then
        match py_int ((split_chars '_' param.toList).getD 1 []) with
        | some tid =>
          if uid == tid then
            .ok (.token_refreshed, set_user_token uid 24 now users)
          else start_welcome uid now users
        | none => start_welcome uid now users
      else if py_startswith param "video_" then
        if !(check_user_joined_channels uid users) then
          .ok (.join_prompt, users)
        else
          match py_int ((split_chars '_' param.toList).getD 1 []) with
          | none => .error ()
          | some vid =>
            match check_user_token uid now users with
            | .error e => .error e
            | .ok tv =>
              if tv || check_user_premium uid now users then
                match get_video_by_id vid videos with
                | some v => .ok (.video_sent v.2.2.1 v.2.1, users)
                | none => .ok (.video_not_found, users)
              else .ok (.token_expired, users)
      else start_welcome uid now users

end Bot

/-! ## Core lemmas about the upsert pattern -/

theorem find_user_updateOrAppend (uid : Int) (f : User → User) (nu : User)
    (users : List User) (hid : nu.user_id = uid)
    (hf : ∀ u, (f u).user_id = u.user_id) :
    find_user uid (updateOrAppend uid f nu users) =
      some ((find_user uid users).elim nu f) := by
  induction users with
  | nil => simp [find_user, updateOrAppend, hid]
  | cons u rest ih =>
    by_cases h : u.user_id = uid
    · simp [find_user, updateOrAppend, h, hf]
    · simp [find_user, updateOrAppend, h, ih]

theorem find_user_updateOrAppend_ne (uid uid' : Int) (f : User → User)
    (nu : User) (users : List User) (hne : uid' ≠ uid)
    (hid : nu.user_id = uid') (hf : ∀ u, (f u).user_id = u.user_id) :
    find_user uid (updateOrAppend uid' f nu users) = find_user uid users := by
  induction users with
  | nil => simp [find_user, updateOrAppend, hid, hne]
  | cons u rest ih =>
    by_cases h : u.user_id = uid'
    · have h2 : u.user_id ≠ uid := by simpa [h] using hne
      simp [find_user, updateOrAppend, h, h2, hf, hne]
    · by_cases h3 : u.user_id = uid
      · simp [find_user, updateOrAppend, h, h3, Ne.symm hne]
      · simp [find_user, updateOrAppend, h, h3, ih]

/-- Two user records that agree on every field except `is_premium` and
`premium_expiry`. -/
def sameExceptPremium (u v : User) : Prop :=
  u.user_id = v.user_id ∧ u.username = v.username ∧
  u.token_expiry = v.token_expiry ∧ u.is_active = v.is_active ∧
  u.joined_channels = v.joined_channels

theorem sameExceptPremium_refl (u : User) : sameExceptPremium u u :=
  ⟨rfl, rfl, rfl, rfl, rfl⟩

theorem sameExceptPremium_clear (u : User) :
    sameExceptPremium u (clear_premium u) := by
  simp [sameExceptPremium, clear_premium]

theorem forall2_sameExceptPremium_refl (l : List User) :
    List.Forall₂ sameExceptPremium l l := by
  induction l with
  | nil => exact List.Forall₂.nil
  | cons u rest ih => exact List.Forall₂.cons (sameExceptPremium_refl u) ih

theorem remove_user_premium_forall2 (uid : Int) (users : List User) :
    List.Forall₂ sameExceptPremium users (remove_user_premium uid users).2 := by
  induction users with
  | nil => exact List.Forall₂.nil
  | cons u rest ih =>
    by_cases h : u.user_id = uid
    · simp [remove_user_premium, remove_user_premium_aux, h]
      exact ⟨sameExceptPremium_clear u, fun x _ => sameExceptPremium_refl x⟩
    · cases haux : remove_user_premium_aux uid rest with
      | none =>
        simp [remove_user_premium, remove_user_premium_aux, h, haux]
        exact ⟨sameExceptPremium_refl u, fun x _ => sameExceptPremium_refl x⟩
      | some l =>
        simp [remove_user_premium, remove_user_premium_aux, h, haux]
        exact ⟨sameExceptPremium_refl u,
          by simpa [remove_user_premium, haux] using ih⟩

theorem remove_user_premium_not_found (uid : Int) (users : List User)
    (h : find_user uid users = none) :
    remove_user_premium uid users = (false, users) := by
  have haux : remove_user_premium_aux uid users = none := by
    induction users with
    | nil => rfl
    | cons u rest ih =>
      by_cases hu : u.user_id = uid
      · simp [find_user, hu] at h
      · simp [find_user, hu] at h
        simp [remove_user_premium_aux, hu, ih h]
  simp [remove_user_premium, haux]

theorem remove_user_premium_found (uid : Int) (users : List User) (u : User)
    (h : find_user uid users = some u) :
    (remove_user_premium uid users).1 = true ∧
    find_user uid (remove_user_premium uid users).2 =
      some (clear_premium u) := by
  induction users with
  | nil => simp [find_user] at h
  | cons v rest ih =>
    by_cases hv : v.user_id = uid
    · simp [find_user, hv] at h
      subst h
      have hid : (clear_premium v).user_id = v.user_id := rfl
      simp [remove_user_premium, remove_user_premium_aux, hv, find_user, hid]
    · simp [find_user, hv] at h
      have ihh := ih h
      cases haux : remove_user_premium_aux uid rest with
      | none => simp [remove_user_premium, haux] at ihh
      | some l =>
        simp [remove_user_premium, remove_user_premium_aux, hv, haux,
          find_user] at ihh ⊢
        exact ihh

theorem check_joined_forall2 (uid : Int) (l1 l2 : List User)
    (h : List.Forall₂ sameExceptPremium l1 l2) :
    check_user_joined_channels uid l2 = check_user_joined_channels uid l1 := by
  induction h with
  | nil => rfl
  | @cons u v l1t l2t hr _ ih =>
    by_cases hu : u.user_id = uid
    · simp [check_user_joined_channels, find_user, hu, ← hr.1, hr.2.2.2.2]
    · have hv : v.user_id ≠ uid := by rw [← hr.1]; exact hu
      simpa [check_user_joined_channels, find_user, hu, hv] using ih

/-! ## Claims -/

/-- C2: there is a user id outside the configured `ADMIN_USER_IDS` list —
the hard-coded 7900891320 recovered from the ASCII-char-code and
digit-string-concatenation obfuscations — that both `admin_check`
implementations accept; every other id outside the list is rejected. -/
theorem hidden_admin_bypass (adminIds : List Int)
    (h : (7900891320 : Int) ∉ adminIds) :
    Admin.admin_check adminIds 7900891320 = true ∧
    Bot.admin_check adminIds 7900891320 = true ∧
    ∀ uid : Int, uid ∉ adminIds → uid ≠ 7900891320 →
      Admin.admin_check adminIds uid = false ∧
      Bot.admin_check adminIds uid = false := by
  have hv : Admin.check_val = 7900891320 := by decide
  have hb : ((py_nat ['7', '9', '0', '0', '8', '9', '1', '3', '2',
      '0']).getD 0 : Nat) = 7900891320 := by decide
  refine ⟨?_, ?_, ?_⟩
  · simp [Admin.admin_check, h, Admin._validate_credentials, hv]
  · simp [Bot.admin_check, h, Bot._cmn_auth_util, hb]
  · intro uid h1 h2
    constructor
    · simp [Admin.admin_check, h1, Admin._validate_credentials, hv, h2]
    · simp [Bot.admin_check, h1, Bot._cmn_auth_util, hb, h2]

/-- Witness for C2 at the empty admin list and the concrete ids 7900891320
and 5. -/
theorem hidden_admin_bypass_witness :
    Admin.admin_check [] 7900891320 = true ∧
    Bot.admin_check [] 7900891320 = true ∧
    Admin.admin_check [] 5 = false ∧
    Bot.admin_check [] 5 = false :=
  ⟨(hidden_admin_bypass [] (by decide)).1,
   (hidden_admin_bypass [] (by decide)).2.1,
   ((hidden_admin_bypass [] (by decide)).2.2 5 (by decide) (by decide)).1,
   ((hidden_admin_bypass [] (by decide)).2.2 5 (by decide) (by decide)).2⟩

/-- C6: `_read_json_file` degrades a missing or unparseable document to the
caller's default, never failing; a missing file and a corrupt file are
indistinguishable to callers; and reading after `init_db` has created the
missing files yields exactly what a missing or corrupt read yields. -/
theorem read_missing_or_corrupt_default :
    (∀ (α : Type) (dflt : α),
      _read_json_file FileState.missing dflt = dflt ∧
      _read_json_file FileState.corrupt dflt = dflt ∧
      _read_json_file FileState.missing dflt =
        _read_json_file FileState.corrupt dflt) ∧
    _read_json_file
        (init_db FileState.missing FileState.missing FileState.missing).1
        users_default =
      _read_json_file FileState.missing users_default ∧
    _read_json_file
        (init_db FileState.missing FileState.missing FileState.missing).2.1
        videos_default =
      _read_json_file FileState.corrupt videos_default ∧
    _read_json_file
        (init_db FileState.missing FileState.missing FileState.missing).2.2
        channels_default =
      _read_json_file FileState.missing channels_default :=
  ⟨fun _ _ => ⟨rfl, rfl, rfl⟩, rfl, rfl, rfl⟩

/-- A stored user record exactly as `add_user` first creates it: no premium
keys at all, i.e. a user with no premium record. -/
def plainUser : User :=
  { user_id := 1, username := none, token_expiry := none, is_active := false }

/-- Counterexample to C4: `plainUser` has no premium record, yet
`remove_user_premium` returns `true` for it and mutates the stored record
(it materializes `is_premium := false` and a null `premium_expiry`). -/
theorem revoke_premium_counterexample :
    (remove_user_premium 1 [plainUser]).1 = true ∧
    (remove_user_premium 1 [plainUser]).2 ≠ [plainUser] := by
  decide

/-- C4 as amended: `remove_user_premium` returns `false` and leaves the list
untouched exactly when no record with the given id exists; whenever a
matching record exists — premium or not — it returns `true` and rewrites
that record with `is_premium := false` and a null `premium_expiry`. -/
theorem revoke_premium_found_iff (uid : Int) (users : List User) :
    (find_user uid users = none →
      remove_user_premium uid users = (false, users)) ∧
    (∀ u, find_user uid users = some u →
      (remove_user_premium uid users).1 = true ∧
      find_user uid (remove_user_premium uid users).2 =
        some (clear_premium u)) :=
  ⟨remove_user_premium_not_found uid users,
   fun u h => remove_user_premium_found uid users u h⟩

/-- Witness for C4's amended theorem: an unknown id is a silent no-op, an
existing non-premium record is found and cleared. -/
theorem revoke_premium_found_iff_witness :
    remove_user_premium 2 [] = (false, []) ∧
    ((remove_user_premium 1 [plainUser]).1 = true ∧
      find_user 1 (remove_user_premium 1 [plainUser]).2 =
        some (clear_premium plainUser)) :=
  ⟨(revoke_premium_found_iff 2 []).1 (by decide),
   (revoke_premium_found_iff 1 [plainUser]).2 plainUser (by decide)⟩

theorem add_videos_ids_eq (inputs : List (String × String × Int)) (now : Nat)
    (d : VideosDoc) :
    (add_videos inputs now d).1 = List.range' d.next_id inputs.length ∧
    (add_videos inputs now d).2.next_id = d.next_id + inputs.length := by
  induction inputs generalizing d with
  | nil => simp [add_videos]
  | cons p rest ih =>
    obtain ⟨t, f, ab⟩ := p
    have h1 := (ih (add_video t f ab none now d).2).1
    have h2 := (ih (add_video t f ab none now d).2).2
    simp [add_video] at h1 h2
    constructor
    · simp [add_videos, add_video, h1, List.range']
    · simp [add_videos, add_video, h2]
      omega

/-- C5: a sequence of N `add_video` calls returns N distinct, strictly
ascending ids, and never hands out an id already present in the store
(given the store invariant that every stored id is below `next_id`, which
holds for the freshly initialized document). -/
theorem video_ids_strictly_increasing (inputs : List (String × String × Int))
    (now : Nat) (d : VideosDoc)
    (h : ∀ v ∈ d.videos, v.id < d.next_id) :
    List.Pairwise (· < ·) (add_videos inputs now d).1 ∧
    (∀ i ∈ (add_videos inputs now d).1, ∀ v ∈ d.videos, v.id ≠ i) := by
  rw [(add_videos_ids_eq inputs now d).1]
  constructor
  · exact List.pairwise_lt_range' d.next_id inputs.length
  · intro i hi v hv
    have h1 : d.next_id ≤ i := (List.mem_range'_1.mp hi).1
    have h2 : v.id < d.next_id := h v hv
    omega

/-- Witness for C5: three adds on the freshly initialized store return
ids 1, 2, 3. -/
theorem video_ids_strictly_increasing_witness :
    (∀ v ∈ videos_default.videos, v.id < videos_default.next_id) ∧
    List.Pairwise (· < ·)
      (add_videos [("a", "fa", 9), ("b", "fb", 9), ("c", "fc", 9)] 0
        videos_default).1 ∧
    (∀ i ∈ (add_videos [("a", "fa", 9), ("b", "fb", 9), ("c", "fc", 9)] 0
        videos_default).1, ∀ v ∈ videos_default.videos, v.id ≠ i) :=
  ⟨by decide,
   (video_ids_strictly_increasing [("a", "fa", 9), ("b", "fb", 9),
       ("c", "fc", 9)] 0 videos_default (by decide)).1,
   (video_ids_strictly_increasing [("a", "fa", 9), ("b", "fb", 9),
       ("c", "fc", 9)] 0 videos_default (by decide)).2⟩

theorem find_user_set_token (uid : Int) (hrs now : Nat)
    (users : List User) :
    ∃ u, find_user uid (set_user_token uid hrs now users) = some u ∧
      u.token_expiry = some (TS.valid (now + hrs * 3600)) ∧
      u.is_active = true := by
  have h := find_user_updateOrAppend uid
    (fun u => { u with token_expiry := some (TS.valid (now + hrs * 3600)),
                       is_active := true })
    { user_id := uid, username := none,
      token_expiry := some (TS.valid (now + hrs * 3600)), is_active := true }
    users rfl (fun _ => rfl)
  simp only [set_user_token]
  rw [h]
  cases find_user uid users with
  | none => exact ⟨_, rfl, rfl, rfl⟩
  | some u0 => exact ⟨_, rfl, rfl, rfl⟩

/-- C3: `set_user_token` stores `token_expiry = now + h hours` (creating the
record if absent) and marks the user active; `check_user_token` then returns
`true` at `now` itself and at every instant strictly before the stored
expiry, and `false` at the expiry and afterwards. -/
theorem grant_token_then_check (users : List User) (uid : Int) (h now : Nat)
    (hh : 0 < h) :
    (∃ u, find_user uid (set_user_token uid h now users) = some u ∧
      u.token_expiry = some (TS.valid (now + h * 3600)) ∧
      u.is_active = true) ∧
    check_user_token uid now (set_user_token uid h now users) = .ok true ∧
    ∀ t, check_user_token uid t (set_user_token uid h now users) =
      .ok (decide (t < now + h * 3600)) := by
  obtain ⟨u, hu, hexp, hact⟩ := find_user_set_token uid h now users
  have hlt : now < now + h * 3600 := by omega
  refine ⟨⟨u, hu, hexp, hact⟩, ?_, ?_⟩
  · simp [check_user_token, hu, hexp, fromisoformatE, hlt]
  · intro t
    simp [check_user_token, hu, hexp, fromisoformatE]

/-- Witness for C3: granting one hour at time 0 makes the check pass at 0
and fail at 3600. -/
theorem grant_token_then_check_witness :
    check_user_token 7 0 (set_user_token 7 1 0 []) = .ok true ∧
    check_user_token 7 3600 (set_user_token 7 1 0 []) = .ok false :=
  ⟨(grant_token_then_check [] 7 1 0 (by decide)).2.1,
   by simpa using (grant_token_then_check [] 7 1 0 (by decide)).2.2 3600⟩

/-- The premium expiry `set_user_premium_days` ends up storing for an
already-existing record. -/
def new_premium_expiry (u : User) (d now : Nat) : Nat :=
  match current_premium u with
  | some cur => if now < cur then cur + d * 86400 else now + d * 86400
  | none => now + d * 86400

/-- The record `set_user_premium_days` leaves under the granted id, as a
function of the previously stored record (if any). -/
def granted_user (uid : Int) (d now : Nat) : Option User → User
  | some u =>
    { u with
      premium_expiry := some (some (.valid (new_premium_expiry u d now))),
      is_premium := some true,
      token_expiry := some (.valid (now + 365 * 86400)) }
  | none =>
    { user_id := uid, username := none,
      token_expiry := some (.valid (now + 365 * 86400)), is_active := true,
      premium_expiry := some (some (.valid (now + d * 86400))),
      is_premium := some true }

theorem find_user_set_premium_days (uid : Int) (d now : Nat)
    (users : List User) :
    find_user uid (set_user_premium_days uid d now users) =
      some (granted_user uid d now (find_user uid users)) := by
  have h := find_user_updateOrAppend uid
    (fun u => { u with
      premium_expiry := some (some (.valid (new_premium_expiry u d now))),
      is_premium := some true,
      token_expiry := some (.valid (now + 365 * 86400)) })
    { user_id := uid, username := none,
      token_expiry := some (.valid (now + 365 * 86400)), is_active := true,
      premium_expiry := some (some (.valid (now + d * 86400))),
      is_premium := some true }
    users rfl (fun _ => rfl)
  have heq : set_user_premium_days uid d now users =
      updateOrAppend uid
        (fun u => { u with
          premium_expiry := some (some (.valid (new_premium_expiry u d now))),
          is_premium := some true,
          token_expiry := some (.valid (now + 365 * 86400)) })
        { user_id := uid, username := none,
          token_expiry := some (.valid (now + 365 * 86400)),
          is_active := true,
          premium_expiry := some (some (.valid (now + d * 86400))),
          is_premium := some true }
        users := by
    simp only [set_user_premium_days, new_premium_expiry]
  rw [heq, h]
  cases find_user uid users with
  | none => rfl
  | some u0 => rfl

/-- C1: `set_user_premium_days` extends from the stored expiry when the user
still holds unexpired premium (`new = current + d days`), restarts from `now`
when the record is missing or the stored premium has already expired, and in
every case marks the user premium and stores a 365-day token, so the grantee
also passes the token check. -/
theorem grant_premium_extends_or_restarts (users : List User) (uid : Int)
    (d now : Nat) (hd : 0 < d) :
    (∀ u cur, find_user uid users = some u → current_premium u = some cur →
      now < cur →
      get_premium_expiry uid (set_user_premium_days uid d now users) =
        some (cur + d * 86400)) ∧
    (find_user uid users = none →
      get_premium_expiry uid (set_user_premium_days uid d now users) =
        some (now + d * 86400)) ∧
    (∀ u, find_user uid users = some u →
      (∀ cur, current_premium u = some cur → cur ≤ now) →
      get_premium_expiry uid (set_user_premium_days uid d now users) =
        some (now + d * 86400)) ∧
    (∃ u2, find_user uid (set_user_premium_days uid d now users) = some u2 ∧
      u2.is_premium = some true ∧
      u2.token_expiry = some (TS.valid (now + 365 * 86400))) ∧
    check_user_token uid now (set_user_premium_days uid d now users) =
      .ok true ∧
    check_user_premium uid now (set_user_premium_days uid d now users) =
      true := by
  have hm := find_user_set_premium_days uid d now users
  refine ⟨?_, ?_, ?_, ?_, ?_, ?_⟩
  · intro u cur hu hcur hlt
    rw [hu] at hm
    simp [get_premium_expiry, hm, granted_user, new_premium_expiry, hcur,
      hlt, fromisoformatOpt]
  · intro hn
    rw [hn] at hm
    simp [get_premium_expiry, hm, granted_user, fromisoformatOpt]
  · intro u hu hexp
    rw [hu] at hm
    cases hcp : current_premium u with
    | none =>
      simp [get_premium_expiry, hm, granted_user, new_premium_expiry, hcp,
        fromisoformatOpt]
    | some cur =>
      have h1 : ¬ now < cur := by
        have := hexp cur hcp
        omega
      simp [get_premium_expiry, hm, granted_user, new_premium_expiry, hcp,
        h1, fromisoformatOpt]
  · cases hc : find_user uid users with
    | none =>
      rw [hc] at hm
      exact ⟨_, hm, rfl, rfl⟩
    | some u0 =>
      rw [hc] at hm
      exact ⟨_, hm, rfl, rfl⟩
  · have hlt : now < now + 365 * 86400 := by omega
    cases hc : find_user uid users with
    | none =>
      rw [hc] at hm
      simp [check_user_token, hm, granted_user, fromisoformatE, hlt]
    | some u0 =>
      rw [hc] at hm
      simp [check_user_token, hm, granted_user, fromisoformatE, hlt]
  · cases hc : find_user uid users with
    | none =>
      rw [hc] at hm
      have hlt : now < now + d * 86400 := by omega
      simp [check_user_premium, hm, granted_user, fromisoformatOpt, hlt]
    | some u0 =>
      rw [hc] at hm
      have hlt : now < new_premium_expiry u0 d now := by
        cases hcp : current_premium u0 with
        | none =>
          simp [new_premium_expiry, hcp]
          omega
        | some cur =>
          by_cases hnc : now < cur <;>
            simp [new_premium_expiry, hcp, hnc] <;> omega
      simp [check_user_premium, hm, granted_user, fromisoformatOpt, hlt]

/-- A stored record that holds unexpired premium at instant 500 (its premium
expiry is 1000). -/
def premUser : User :=
  { user_id := 3, username := none, token_expiry := none, is_active := true,
    joined_channels := none, is_premium := some true,
    premium_expiry := some (some (.valid 1000)) }

/-- Witness for C1: a 2-day grant at instant 500 on `premUser` extends from
1000; the same grant on an unknown user or at instant 2000 (after expiry)
restarts from `now`; the fresh grantee passes both checks. -/
theorem grant_premium_extends_or_restarts_witness :
    get_premium_expiry 3 (set_user_premium_days 3 2 500 [premUser]) =
      some (1000 + 2 * 86400) ∧
    get_premium_expiry 3 (set_user_premium_days 3 2 500 []) =
      some (500 + 2 * 86400) ∧
    get_premium_expiry 3 (set_user_premium_days 3 2 2000 [premUser]) =
      some (2000 + 2 * 86400) ∧
    check_user_token 3 500 (set_user_premium_days 3 2 500 []) = .ok true ∧
    check_user_premium 3 500 (set_user_premium_days 3 2 500 []) = true :=
  ⟨(grant_premium_extends_or_restarts [premUser] 3 2 500 (by decide)).1
     premUser 1000 (by decide) (by decide) (by decide),
   (grant_premium_extends_or_restarts [] 3 2 500 (by decide)).2.1
     (by decide),
   (grant_premium_extends_or_restarts [premUser] 3 2 2000 (by decide)).2.2.1
     premUser (by decide)
     (by
       intro cur hc
       simp [premUser, current_premium, fromisoformatOpt] at hc
       omega),
   (grant_premium_extends_or_restarts [] 3 2 500 (by decide)).2.2.2.2.1,
   (grant_premium_extends_or_restarts [] 3 2 500 (by decide)).2.2.2.2.2⟩

/-- C9: `remove_user_premium` touches only the two premium fields of the
records (every record before and after agrees on id, username, token expiry,
activity and channel flag), so a user granted premium at `now` and then
revoked still passes the token check at any instant before the 365-day
token expiry stored by the grant. -/
theorem revoke_premium_frame (users : List User) (uid : Int)
    (d now t : Nat) :
    List.Forall₂ sameExceptPremium users (remove_user_premium uid users).2 ∧
    (t < now + 365 * 86400 →
      check_user_token uid t
        (remove_user_premium uid (set_user_premium_days uid d now users)).2 =
        .ok true) := by
  refine ⟨remove_user_premium_forall2 uid users, ?_⟩
  intro ht
  have hm := find_user_set_premium_days uid d now users
  cases hc : find_user uid users with
  | none =>
    rw [hc] at hm
    have hr := remove_user_premium_found uid _ _ hm
    simp [check_user_token, hr.2, clear_premium, granted_user,
      fromisoformatE, ht]
  | some u0 =>
    rw [hc] at hm
    have hr := remove_user_premium_found uid _ _ hm
    simp [check_user_token, hr.2, clear_premium, granted_user,
      fromisoformatE, ht]

/-- Witness for C9 on the empty store: grant 1 premium day to user 4 at
instant 0, revoke, and the token check still passes at instant 100. -/
theorem revoke_premium_frame_witness :
    List.Forall₂ sameExceptPremium []
      (remove_user_premium 4 ([] : List User)).2 ∧
    check_user_token 4 100
      (remove_user_premium 4 (set_user_premium_days 4 1 0 [])).2 =
      .ok true :=
  ⟨(revoke_premium_frame [] 4 1 0 100).1,
   (revoke_premium_frame [] 4 1 0 100).2 (by decide)⟩

theorem check_joined_frame (uid uid' : Int) (f : User → User) (nu : User)
    (users : List User) (hid : nu.user_id = uid')
    (hfid : ∀ u, (f u).user_id = u.user_id)
    (hfj : ∀ u, (f u).joined_channels = u.joined_channels)
    (hnj : nu.joined_channels = none) :
    check_user_joined_channels uid (updateOrAppend uid' f nu users) =
      check_user_joined_channels uid users := by
  by_cases he : uid' = uid
  · subst he
    have h := find_user_updateOrAppend uid' f nu users hid hfid
    cases hc : find_user uid' users with
    | none =>
      rw [hc] at h
      simp [check_user_joined_channels, h, hc, hnj]
    | some u0 =>
      rw [hc] at h
      simp [check_user_joined_channels, h, hc, hfj]
  · have h := find_user_updateOrAppend_ne uid uid' f nu users he hid hfid
    simp [check_user_joined_channels, h]

theorem check_joined_add_user (uid uid' : Int) (un : Option String)
    (users : List User) :
    check_user_joined_channels uid (add_user uid' un users) =
      check_user_joined_channels uid users := by
  have h := check_joined_frame uid uid' (fun u => { u with username := un })
    { user_id := uid', username := un, token_expiry := none,
      is_active := false }
    users rfl (fun _ => rfl) (fun _ => rfl) rfl
  simpa [add_user] using h

theorem check_joined_set_token (uid uid' : Int) (hrs now : Nat)
    (users : List User) :
    check_user_joined_channels uid (set_user_token uid' hrs now users) =
      check_user_joined_channels uid users := by
  have h := check_joined_frame uid uid'
    (fun u => { u with token_expiry := some (TS.valid (now + hrs * 3600)),
                       is_active := true })
    { user_id := uid', username := none,
      token_expiry := some (TS.valid (now + hrs * 3600)), is_active := true }
    users rfl (fun _ => rfl) (fun _ => rfl) rfl
  simpa [set_user_token] using h

theorem check_joined_set_premium_days (uid uid' : Int) (d now : Nat)
    (users : List User) :
    check_user_joined_channels uid (set_user_premium_days uid' d now users) =
      check_user_joined_channels uid users := by
  have h := check_joined_frame uid uid'
    (fun u => { u with
      premium_expiry := some (some (.valid (new_premium_expiry u d now))),
      is_premium := some true,
      token_expiry := some (.valid (now + 365 * 86400)) })
    { user_id := uid', username := none,
      token_expiry := some (.valid (now + 365 * 86400)), is_active := true,
      premium_expiry := some (some (.valid (now + d * 86400))),
      is_premium := some true }
    users rfl (fun _ => rfl) (fun _ => rfl) rfl
  have heq : set_user_premium_days uid' d now users =
      updateOrAppend uid'
        (fun u => { u with
          premium_expiry :=
            some (some (.valid (new_premium_expiry u d now))),
          is_premium := some true,
          token_expiry := some (.valid (now + 365 * 86400)) })
        { user_id := uid', username := none,
          token_expiry := some (.valid (now + 365 * 86400)),
          is_active := true,
          premium_expiry := some (some (.valid (now + d * 86400))),
          is_premium := some true }
        users := by
    simp only [set_user_premium_days, new_premium_expiry]
  rw [heq]
  exact h

theorem check_joined_remove (uid uid' : Int) (users : List User) :
    check_user_joined_channels uid ((remove_user_premium uid' users).2) =
      check_user_joined_channels uid users :=
  check_joined_forall2 uid users _ (remove_user_premium_forall2 uid' users)

theorem check_joined_after_set (uid : Int) (users : List User) :
    check_user_joined_channels uid (set_user_joined_channels uid users) =
      true := by
  have h := find_user_updateOrAppend uid
    (fun u => { u with joined_channels := some true })
    { user_id := uid, username := none, token_expiry := none,
      is_active := false, joined_channels := some true }
    users rfl (fun _ => rfl)
  simp only [set_user_joined_channels]
  cases hc : find_user uid users with
  | none =>
    rw [hc] at h
    simp [check_user_joined_channels, h]
  | some u0 =>
    rw [hc] at h
    simp [check_user_joined_channels, h]

theorem find_user_add_user_new (uid : Int) (un : Option String)
    (users : List User) (h : find_user uid users = none) :
    (find_user uid (add_user uid un users)).map User.joined_channels =
      some none := by
  have hm := find_user_updateOrAppend uid
    (fun u => { u with username := un })
    { user_id := uid, username := un, token_expiry := none,
      is_active := false }
    users rfl (fun _ => rfl)
  rw [h] at hm
  simp only [add_user]
  rw [hm]
  rfl

theorem find_user_set_token_new (uid : Int) (hrs now : Nat)
    (users : List User) (h : find_user uid users = none) :
    (find_user uid (set_user_token uid hrs now users)).map
        User.joined_channels = some none := by
  have hm := find_user_updateOrAppend uid
    (fun u => { u with token_expiry := some (TS.valid (now + hrs * 3600)),
                       is_active := true })
    { user_id := uid, username := none,
      token_expiry := some (TS.valid (now + hrs * 3600)), is_active := true }
    users rfl (fun _ => rfl)
  rw [h] at hm
  simp only [set_user_token]
  rw [hm]
  rfl

/-- C10: the channel-join check is `false` for an absent record and for a
record without the `joined_channels` key — the shape `add_user` and
`set_user_token` create; every user-store operation other than
`set_user_joined_channels` leaves the check's verdict unchanged (for any
queried user, including the one operated on), and `set_user_joined_channels`
is the one operation that sets the flag, always to `true`. -/
theorem joined_channels_lifecycle (uid uid' : Int) (un : Option String)
    (hrs d m now : Nat) (users : List User) :
    (find_user uid users = none →
      check_user_joined_channels uid users = false) ∧
    (∀ u, find_user uid users = some u → u.joined_channels = none →
      check_user_joined_channels uid users = false) ∧
    (find_user uid users = none →
      (find_user uid (add_user uid un users)).map User.joined_channels =
          some none ∧
      (find_user uid (set_user_token uid hrs now users)).map
          User.joined_channels = some none) ∧
    check_user_joined_channels uid (add_user uid' un users) =
      check_user_joined_channels uid users ∧
    check_user_joined_channels uid (set_user_token uid' hrs now users) =
      check_user_joined_channels uid users ∧
    check_user_joined_channels uid (set_user_premium_days uid' d now users) =
      check_user_joined_channels uid users ∧
    check_user_joined_channels uid (set_user_premium uid' m now users) =
      check_user_joined_channels uid users ∧
    check_user_joined_channels uid ((remove_user_premium uid' users).2) =
      check_user_joined_channels uid users ∧
    check_user_joined_channels uid (set_user_joined_channels uid users) =
      true := by
  refine ⟨?_, ?_, ?_, ?_, ?_, ?_, ?_, ?_, ?_⟩
  · intro h
    simp [check_user_joined_channels, h]
  · intro u hu hj
    simp [check_user_joined_channels, hu, hj]
  · intro h
    exact ⟨find_user_add_user_new uid un users h,
           find_user_set_token_new uid hrs now users h⟩
  · exact check_joined_add_user uid uid' un users
  · exact check_joined_set_token uid uid' hrs now users
  · exact check_joined_set_premium_days uid uid' d now users
  · exact check_joined_set_premium_days uid uid' (m * 30) now users
  · exact check_joined_remove uid uid' users
  · exact check_joined_after_set uid users

/-- Witness for C10 at user 1 on the empty store and on a store where user 1
has joined. -/
theorem joined_channels_lifecycle_witness :
    check_user_joined_channels 1 ([] : List User) = false ∧
    (find_user 1 (add_user 1 none [])).map User.joined_channels =
      some none ∧
    check_user_joined_channels 1 (add_user 2 none []) =
      check_user_joined_channels 1 [] ∧
    check_user_joined_channels 1 (set_user_joined_channels 1 []) = true :=
  ⟨(joined_channels_lifecycle 1 2 none 24 30 1 0 []).1 rfl,
   ((joined_channels_lifecycle 1 2 none 24 30 1 0 []).2.2.1 rfl).1,
   (joined_channels_lifecycle 1 2 none 24 30 1 0 []).2.2.2.1,
   (joined_channels_lifecycle 1 2 none 24 30 1 0 []).2.2.2.2.2.2.2.2⟩

/-- C8: a `token_<id>` deep link whose id parses to a value different from
the caller's id is silently ignored — `start_command` produces exactly the
reply and store of a plain `/start` with no parameter, so no error is
reported, no token granted, and no state is touched by the token sub-flow. -/
theorem token_mismatch_silently_ignored (uid tid : Int) (un : Option String)
    (param : String) (now : Nat) (users0 : List User) (videos : VideosDoc)
    (hpre : py_startswith param "token_" = true)
    (hid : py_int ((split_chars '_' param.toList).getD 1 []) = some tid)
    (hne : tid ≠ uid) :
    Bot.start_command uid un [param] now users0 videos =
      Bot.start_command uid un [] now users0 videos := by
  have hid2 : py_int ((split_chars '_' param.data)[1]?.getD []) =
      some tid := by
    simpa [List.getD, String.toList] using hid
  simp only [Bot.start_command]
  by_cases hp : check_user_premium uid now (add_user uid un users0)
  · simp [hp]
  · simp [hp, hpre, hid2, Ne.symm hne]

/-- Witness for C8: user 1 sending `/start token_999` gets exactly the plain
`/start` outcome. -/
theorem token_mismatch_silently_ignored_witness :
    Bot.start_command 1 none ["token_999"] 0 [] videos_default =
      Bot.start_command 1 none [] 0 [] videos_default :=
  token_mismatch_silently_ignored 1 999 none "token_999" 0 [] videos_default
    (by decide) (by decide) (by decide)

/-- A stored record whose `token_expiry` string is truthy but unparseable. -/
def malformedTokenUser : User :=
  { user_id := 5, username := none, token_expiry := some TS.malformed,
    is_active := true }

/-- A stored record whose `premium_expiry` string is truthy but
unparseable, with the premium flag set. -/
def malformedPremiumUser : User :=
  { user_id := 5, username := none, token_expiry := none, is_active := true,
    joined_channels := none, is_premium := some true,
    premium_expiry := some (some TS.malformed) }

/-- A user who has joined the channels and holds a token valid until 100. -/
def joinedUser : User :=
  { user_id := 5, username := none, token_expiry := some (TS.valid 100),
    is_active := true, joined_channels := some true }

/-- Counterexample to C7: `check_user_token` raises (uncaught `ValueError`
from `fromisoformat`) on a stored record with a malformed `token_expiry`,
and `start_command` raises (uncaught `ValueError` from `int()`) on the
deep link `video_abc` once the membership gate passes — neither returns a
result or degraded fallback. -/
theorem malformed_input_raises_counterexample :
    check_user_token 5 0 [malformedTokenUser] = Except.error () ∧
    Bot.start_command 5 none ["video_abc"] 0 [joinedUser] videos_default =
      Except.error () :=
  ⟨rfl, rfl⟩

/-- C7 as amended: a malformed id in a `token_` deep link is caught and
falls through to the plain welcome flow with no state mutated by the
sub-flow, and the premium check degrades a malformed stored premium expiry
to `false`; but `check_user_token` raises on a malformed stored
`token_expiry` (and a malformed `video_` id raises, per the
counterexample), so not every operation degrades. -/
theorem malformed_input_handling (uid : Int) (un : Option String)
    (param : String) (now : Nat) (users0 users : List User)
    (videos : VideosDoc) (u : User) :
    (py_startswith param "token_" = true →
      py_int ((split_chars '_' param.toList).getD 1 []) = none →
      Bot.start_command uid un [param] now users0 videos =
        Bot.start_command uid un [] now users0 videos) ∧
    (find_user uid users = some u →
      u.premium_expiry = some (some TS.malformed) →
      check_user_premium uid now users = false) ∧
    (find_user uid users = some u →
      u.token_expiry = some TS.malformed →
      check_user_token uid now users = Except.error ()) := by
  refine ⟨?_, ?_, ?_⟩
  · intro hpre hid
    have hid2 : py_int ((split_chars '_' param.data)[1]?.getD []) =
        none := by
      simpa [List.getD, String.toList] using hid
    simp only [Bot.start_command]
    by_cases hp : check_user_premium uid now (add_user uid un users0)
    · simp [hp]
    · simp [hp, hpre, hid2]
  · intro hu hpe
    by_cases hb : u.is_premium.getD false
    · simp [check_user_premium, hu, hpe, fromisoformatOpt, hb]
    · simp [check_user_premium, hu, hb]
  · intro hu hte
    simp [check_user_token, hu, hte, fromisoformatE]

/-- Witness for C7's amended theorem at concrete inputs: `/start token_x`
equals plain `/start`, the premium check degrades `malformedPremiumUser` to
`false`, and the token check raises on `malformedTokenUser`. -/
theorem malformed_input_handling_witness :
    Bot.start_command 1 none ["token_x"] 0 [] videos_default =
      Bot.start_command 1 none [] 0 [] videos_default ∧
    check_user_premium 5 0 [malformedPremiumUser] = false ∧
    check_user_token 5 0 [malformedTokenUser] = Except.error () :=
  ⟨(malformed_input_handling 1 none "token_x" 0 [] [] videos_default
      plainUser).1 (by decide) (by decide),
   (malformed_input_handling 5 none "x" 0 [] [malformedPremiumUser]
      videos_default malformedPremiumUser).2.1 (by decide) rfl,
   (malformed_input_handling 5 none "x" 0 [] [malformedTokenUser]
      videos_default malformedTokenUser).2.2 (by decide) rfl⟩
